import Mathlib

/-!
Verification of the neo-vm-rs stack virtual machine against its
natural-language specification.  The definitions below are a shallow
embedding of the Rust sources: the typed value model
(src/types/stack_item.rs), the evaluation stack (src/vm/evaluation_stack.rs),
the instruction decoder (src/vm/instruction.rs, src/vm/op_code.rs,
src/vm/script.rs), the execution engine and its dispatch loop
(src/vm/execution_engine.rs), and the opcode handlers from
src/jump_table/{push,numeric,splice,control}.rs.

Components of the crate that are referenced but whose defining file is not
part of the sources (the VMState enum, ExecutionEngineLimits,
ExceptionHandlingContext / ExceptionHandlingState,
ReferenceCounter::count / check_zero_referred, and the
get_buffer_or_byte_string accessor) are modelled from the specification;
each such definition carries a doc comment starting with
"Modelled from the spec:".

Representation conventions:
  - Rust BigInt is Lean Int; byte vectors are List Nat with entries < 256.
  - Rust Vec-based stacks keep the Vec element order: the evaluation stack
    list is bottom-first (top of stack = last element), exactly as
    inner_list in evaluation_stack.rs.
  - The engine invocation stack is kept top-first (head = current context)
    to make walking from the top structural; the source Vec stores the top
    last, so the model list is the reverse of the Vec.
  - Rc pointer identity cannot be observed in a tree embedding; the
    equality routine therefore takes the std::ptr::eq test as an explicit
    oracle parameter (instantiated with the constantly-false oracle for
    values known to be distinct objects).
  - A Rust panic (unwrap of None/Err, indexing out of bounds) is modelled
    by the engine flag panicked; it is distinct from state = Fault.
-/

namespace NeoVM

/-- Modelled from the spec: the engine state machine of section 4.E,
state in { None, Halt, Fault, Break } (the vm_state module is not among
the sources). -/
inductive VMState where
  | None
  | Halt
  | Fault
  | Break
deriving DecidableEq, Repr

/-- Error taxonomy translated from src/vm/vm_error.rs. -/
inductive VMError where
  | InvocationStackOverflow (msg : String)
  | TryNestingOverflow (msg : String)
  | StackOverflow (msg : String)
  | ItemTooLarge (msg : String)
  | InvalidOpcode (msg : String)
  | DivisionByZero (msg : String)
  | InvalidJump (msg : String)
  | InvalidToken (msg : String)
  | InvalidParameter (msg : String)
  | ItemNotFound (msg : String)
  | InvalidType (msg : String)
  | Custom (msg : String)
deriving DecidableEq, Repr

/-- Modelled from the spec: ExceptionHandlingContext state set
{ Try, Catch, Finally } of section 4.D (the exception_handling_state
module is not among the sources). -/
inductive ExceptionHandlingState where
  | Try
  | Catch
  | Finally
deriving DecidableEq, Repr

/-- Modelled from the spec: ExceptionHandlingContext of section 4.D —
optional catch_pointer, optional finally_pointer, end_pointer, and the
state; a new handler starts in state Try (the exception_handling_context
module is not among the sources, its fields and accessors are used
throughout src/jump_table/control.rs). -/
structure ExceptionHandlingContext where
  catchPointer : Option Nat
  finallyPointer : Option Nat
  endPointer : Nat
  state : ExceptionHandlingState
deriving DecidableEq, Repr

/-- Constructor used by execute_try in src/jump_table/control.rs. -/
def ExceptionHandlingContext.make (c f : Option Nat) : ExceptionHandlingContext :=
  ⟨c, f, 0, ExceptionHandlingState.Try⟩

/-- Modelled from the spec: ExecutionEngineLimits with the defaults of
section 4.E (the execution_engine_limits module is not among the
sources; its fields max_stack_size, max_item_size,
max_invocation_stack_size, max_try_nesting_depth are read by the engine
and jump table). -/
structure ExecutionEngineLimits where
  maxStackSize : Nat
  maxItemSize : Nat
  maxInvocationStackSize : Nat
  maxTryNestingDepth : Nat
  maxShift : Nat
  maxIntegerSize : Nat
deriving DecidableEq, Repr

/-- Modelled from the spec: the default limits — MAX_STACK_SIZE 2048,
MAX_ITEM_SIZE 1 MiB, MAX_INVOCATION_STACK_SIZE 1024,
MAX_TRY_NESTING_DEPTH 16, MAX_SHIFT 256, MAX_INTEGER_SIZE 32 bytes. -/
def defaultLimits : ExecutionEngineLimits :=
  ⟨2048, 1048576, 1024, 16, 256, 32⟩

/-- The typed value model, translated from the StackItem enum in
src/types/stack_item.rs.  The Pointer variant does not appear in that
enum but is constructed by push_a in src/jump_table/push.rs as
StackItem::Pointer(script, position); it is included here with a script
identity and a position, per section 3 of the spec.  InteropInterface
holds an opaque host object; its identity is modelled as a Nat token.
Map is a HashMap keyed by primitive items; it is modelled as an
association list. -/
inductive StackItem where
  | Boolean (b : Bool)
  | Integer (i : Int)
  | ByteString (bs : List Nat)
  | Buffer (bs : List Nat)
  | Array (items : List StackItem)
  | Struct (items : List StackItem)
  | Map (pairs : List (StackItem × StackItem))
  | InteropInterface (objectId : Nat)
  | Null
  | Pointer (scriptId : Nat) (position : Nat)

/-- Little-endian unsigned interpretation of a byte list. -/
def bytesToNatLE : List Nat → Nat
  | [] => 0
  | b :: rest => b % 256 + 256 * bytesToNatLE rest

/-- BigInt::from_signed_bytes_le: little-endian two's-complement; the
value is negative exactly when the most significant byte has its high
bit set; the empty list denotes zero. -/
def fromSignedBytesLE (bs : List Nat) : Int :=
  match bs.getLast? with
  | Option.none => 0
  | Option.some top =>
    if 128 ≤ top % 256 then (bytesToNatLE bs : Int) - 2 ^ (8 * bs.length)
    else (bytesToNatLE bs : Int)

/-- Little-endian magnitude bytes of a natural number, empty for zero
(helper for the signed encoding below). -/
def natToBytesLE : Nat → List Nat
  | 0 => []
  | n + 1 => (n + 1) % 256 :: natToBytesLE ((n + 1) / 256)
decreasing_by exact Nat.div_lt_self (Nat.succ_pos n) (by omega)

/-- BigInt::to_signed_bytes_le: minimal little-endian two's-complement
encoding (zero encodes as the empty list; a sign byte is appended when
the magnitude encoding would be misread). -/
def intToSignedBytesLE (i : Int) : List Nat :=
  if i = 0 then []
  else if 0 < i then
    let m := natToBytesLE i.toNat
    match m.getLast? with
    | Option.some top => if 128 ≤ top then m ++ [0] else m
    | Option.none => m
  else
    let n := (-i).toNat
    let width := 8 * (natToBytesLE n).length
    let mag := natToBytesLE (2 ^ width - n)
    match mag.getLast? with
    | Option.some top =>
      if 128 ≤ top then mag ++ List.replicate ((natToBytesLE n).length - mag.length) 255
      else mag ++ List.replicate ((natToBytesLE n).length - mag.length) 255 ++ [255]
    | Option.none => [255]

/-- StackItem::get_span, translated from src/types/stack_item.rs lines
100-108: Boolean → one byte, Integer → signed little-endian bytes,
ByteString/Buffer → payload, everything else → empty. -/
def StackItem.getSpan : StackItem → List Nat
  | StackItem.Boolean b => [if b then 1 else 0]
  | StackItem.Integer i => intToSignedBytesLE i
  | StackItem.ByteString bs => bs
  | StackItem.Buffer bs => bs
  | _ => []

/-- StackItem::get_boolean, translated from src/types/stack_item.rs lines
110-119: Boolean → itself, Integer → nonzero test, ByteString/Buffer →
non-emptiness of the byte vector (the byte values are not inspected),
Null → false, every other variant → true. -/
def StackItem.getBoolean : StackItem → Bool
  | StackItem.Boolean b => b
  | StackItem.Integer i => i != 0
  | StackItem.ByteString bs => !bs.isEmpty
  | StackItem.Buffer bs => !bs.isEmpty
  | StackItem.Null => false
  | _ => true

def msgTooLongForInteger : String := "ByteString or Buffer too long for integer conversion"

def msgCannotConvertInteger : String := "Cannot convert to integer"

/-- StackItem::get_integer, translated from src/types/stack_item.rs lines
121-135: Boolean → 0 or 1, Integer → itself, ByteString/Buffer → error
when the payload is longer than 8 bytes, otherwise the little-endian
signed two's-complement value of the payload (the source builds a
zero-padded 8-byte buffer it never reads and then parses the original
slice), every other variant → error. -/
def StackItem.getInteger : StackItem → Except String Int
  | StackItem.Boolean b => Except.ok (if b then 1 else 0)
  | StackItem.Integer i => Except.ok i
  | StackItem.ByteString bs =>
    if bs.length > 8 then Except.error msgTooLongForInteger
    else Except.ok (fromSignedBytesLE bs)
  | StackItem.Buffer bs =>
    if bs.length > 8 then Except.error msgTooLongForInteger
    else Except.ok (fromSignedBytesLE bs)
  | _ => Except.error msgCannotConvertInteger

/-- Lookup of a key in the association-list model of a Map.  The source
HashMap compares keys through the PartialEq instance of StackItem
(src/types/stack_item.rs lines 260-264), which compares get_span byte
vectors. -/
def mapGet (pairs : List (StackItem × StackItem)) (key : StackItem) : Option StackItem :=
  (pairs.find? (fun p => p.1.getSpan == key.getSpan)).map (fun p => p.2)

mutual

/-- StackItem::equals, translated from src/types/stack_item.rs lines
198-236.  The std::ptr::eq reference-identity test at the head of the
source function is taken as the oracle parameter same (a tree embedding
has no addresses); the recursive calls re-enter the full function, so
the oracle is consulted at every level exactly as in the source.
Primitives compare by value; Array with Array and Struct with Struct
compare by length and element-wise recursion; Map with Map compares by
length and per-key lookup; every other combination (including Null with
Null and InteropInterface with InteropInterface) falls to the catch-all
false arm.  The limits argument received by the source function is never
read by it; see equals below. -/
def equalsInner (same : StackItem → StackItem → Bool) : StackItem → StackItem → Bool
  | a, b =>
    same a b ||
    match a, b with
    | StackItem.Boolean x, StackItem.Boolean y => x == y
    | StackItem.Integer x, StackItem.Integer y => x == y
    | StackItem.ByteString x, StackItem.ByteString y => x == y
    | StackItem.Buffer x, StackItem.Buffer y => x == y
    | StackItem.Array xs, StackItem.Array ys =>
      xs.length == ys.length && equalsElems same xs ys
    | StackItem.Struct xs, StackItem.Struct ys =>
      xs.length == ys.length && equalsElems same xs ys
    | StackItem.Map xs, StackItem.Map ys =>
      xs.length == ys.length && equalsPairs same xs ys
    | _, _ => false

/-- The element-wise loop of the Array/Struct arm (zip of the two element
lists; the length equality was already checked). -/
def equalsElems (same : StackItem → StackItem → Bool) :
    List StackItem → List StackItem → Bool
  | [], _ => true
  | _ :: _, [] => true
  | x :: xs, y :: ys => equalsInner same x y && equalsElems same xs ys

/-- The per-key loop of the Map arm: for every pair of the left map, look
the key up in the right map and compare the values recursively. -/
def equalsPairs (same : StackItem → StackItem → Bool) :
    List (StackItem × StackItem) → List (StackItem × StackItem) → Bool
  | [], _ => true
  | (k, va) :: rest, b =>
    match mapGet b k with
    | Option.some vb => equalsInner same va vb && equalsPairs same rest b
    | Option.none => false

end

/-- StackItem::equals with the signature of the source (self, other,
limits).  The limits parameter is received and never used by the source
function — no work budget is consulted. -/
def StackItem.equals (same : StackItem → StackItem → Bool)
    (_limits : ExecutionEngineLimits) (a b : StackItem) : Bool :=
  equalsInner same a b

/-- A signed integer is representable in n bytes of two's-complement iff
it lies in [-2^(8n-1), 2^(8n-1)).  This is the spec's integer-magnitude
bound (section 3: Integer magnitude at most MAX_INTEGER_SIZE bytes). -/
def fitsInSignedBytes (n : Nat) (i : Int) : Prop :=
  -(2 ^ (8 * n - 1)) ≤ i ∧ i < 2 ^ (8 * n - 1)

instance (n : Nat) (i : Int) : Decidable (fitsInSignedBytes n i) := by
  unfold fitsInSignedBytes; infer_instance

def msgInsertOOB : String := "Insert out of bounds"

def msgPeekOOB : String := "Peek out of bounds"

def msgReverseOOB : String := "Reverse out of bounds"

def msgRemoveOOB : String := "Remove out of bounds"

/-- The evaluation stack, translated from src/vm/evaluation_stack.rs.
innerList is the Vec inner_list in its Vec order (bottom of the stack
first, top of the stack last).  refCount is the references_count field
of the shared ReferenceCounter (src/vm/reference_counter.rs):
add_stack_reference increments it before any tracking test and
remove_stack_reference decrements it likewise, so every push/insert adds
one and every pop/remove subtracts one regardless of the item kind; the
per-item metadata updates do not affect references_count and are not
modelled. -/
structure EvaluationStack where
  innerList : List StackItem
  refCount : Nat

namespace EvaluationStack

/-- EvaluationStack::count. -/
def count (s : EvaluationStack) : Nat :=
  s.innerList.length

/-- EvaluationStack::push: append at the Vec end and inform the counter. -/
def push (s : EvaluationStack) (item : StackItem) : EvaluationStack :=
  ⟨s.innerList ++ [item], s.refCount + 1⟩

/-- EvaluationStack::insert: index measured from the top; index > count
is rejected, otherwise the item lands at Vec position count - index. -/
def insert (s : EvaluationStack) (index : Nat) (item : StackItem) :
    EvaluationStack × Option VMError :=
  if index > s.count then (s, Option.some (VMError.InvalidParameter msgInsertOOB))
  else (⟨s.innerList.insertIdx (s.count - index) item, s.refCount + 1⟩, Option.none)

/-- EvaluationStack::peek: the n-th item from the top; index ≥ count is
rejected; the stack and the counter are untouched. -/
def peek (s : EvaluationStack) (index : Nat) : Except VMError StackItem :=
  if h : index ≥ s.count then Except.error (VMError.InvalidParameter msgPeekOOB)
  else
    Except.ok (s.innerList.get ⟨s.count - index - 1, by
      have h2 : index < s.count := Nat.lt_of_not_le h
      have h3 : s.count = s.innerList.length := rfl
      omega⟩)

/-- EvaluationStack::reverse: reverse the top n items in place; n > count
is rejected; n ≤ 1 is a no-op. -/
def reverse (s : EvaluationStack) (n : Nat) : EvaluationStack × Option VMError :=
  if n > s.count then (s, Option.some (VMError.InvalidParameter msgReverseOOB))
  else if n ≤ 1 then (s, Option.none)
  else
    (⟨s.innerList.take (s.count - n) ++ (s.innerList.drop (s.count - n)).reverse,
      s.refCount⟩, Option.none)

/-- EvaluationStack::remove: remove and return the n-th item from the
top; index ≥ count is rejected, otherwise the Vec element at
count - index - 1 is removed and the counter decremented. -/
def remove (s : EvaluationStack) (index : Nat) :
    EvaluationStack × Except VMError StackItem :=
  if h : index ≥ s.count then (s, Except.error (VMError.InvalidParameter msgRemoveOOB))
  else
    let adjusted := s.count - index - 1
    let item := s.innerList.get ⟨adjusted, by
      have h2 : index < s.count := Nat.lt_of_not_le h
      have h3 : s.count = s.innerList.length := rfl
      omega⟩
    (⟨s.innerList.eraseIdx adjusted, s.refCount - 1⟩, Except.ok item)

/-- EvaluationStack::pop = remove(0). -/
def pop (s : EvaluationStack) : EvaluationStack × Except VMError StackItem :=
  s.remove 0

end EvaluationStack

/-- C4 counterexample: the non-empty all-zero byte string [0] converts to
Boolean true, because get_boolean only tests emptiness of the payload;
the claim states that a non-empty all-zero byte string converts to
false. -/
theorem c4_counterexample :
    StackItem.getBoolean (StackItem.ByteString [0]) = true := rfl

/-- C4 (amended): Boolean conversion truthiness as implemented — Null is
false; an Integer is true iff non-zero; a ByteString or Buffer is true
iff its length is non-zero (the byte values are never inspected, so a
non-empty all-zero byte string converts to true); Boolean converts to
itself; Pointer, Array, Struct, Map, and InteropInterface values are
always true. -/
theorem c4_truthiness :
    StackItem.getBoolean StackItem.Null = false ∧
    (∀ i : Int, StackItem.getBoolean (StackItem.Integer i) = (i != 0)) ∧
    (∀ bs : List Nat, StackItem.getBoolean (StackItem.ByteString bs) = !bs.isEmpty) ∧
    (∀ bs : List Nat, StackItem.getBoolean (StackItem.Buffer bs) = !bs.isEmpty) ∧
    (∀ b : Bool, StackItem.getBoolean (StackItem.Boolean b) = b) ∧
    (∀ sid pos, StackItem.getBoolean (StackItem.Pointer sid pos) = true) ∧
    (∀ xs, StackItem.getBoolean (StackItem.Array xs) = true) ∧
    (∀ xs, StackItem.getBoolean (StackItem.Struct xs) = true) ∧
    (∀ ps, StackItem.getBoolean (StackItem.Map ps) = true) ∧
    (∀ n, StackItem.getBoolean (StackItem.InteropInterface n) = true) :=
  ⟨rfl, fun _ => rfl, fun _ => rfl, fun _ => rfl, fun _ => rfl,
   fun _ _ => rfl, fun _ => rfl, fun _ => rfl, fun _ => rfl, fun _ => rfl⟩

/-- C5 counterexample: a 9-byte ByteString fails integer conversion,
although the claim states that conversion fails exactly above 32 bytes
and that every 9-to-32-byte payload converts successfully. -/
theorem c5_counterexample :
    StackItem.getInteger (StackItem.ByteString (List.replicate 9 0)) =
      Except.error msgTooLongForInteger := rfl

/-- C5 (amended): primitive-to-Integer conversion parses the payload as
little-endian signed two's-complement but fails exactly when the
payload is longer than 8 bytes (not 32); Boolean converts to 0 or 1 and
Integer to itself. -/
theorem c5_primitive_to_integer :
    (∀ bs : List Nat, bs.length ≤ 8 →
        StackItem.getInteger (StackItem.ByteString bs) = Except.ok (fromSignedBytesLE bs) ∧
        StackItem.getInteger (StackItem.Buffer bs) = Except.ok (fromSignedBytesLE bs)) ∧
    (∀ bs : List Nat, 8 < bs.length →
        StackItem.getInteger (StackItem.ByteString bs) = Except.error msgTooLongForInteger ∧
        StackItem.getInteger (StackItem.Buffer bs) = Except.error msgTooLongForInteger) ∧
    (∀ b : Bool, StackItem.getInteger (StackItem.Boolean b) =
        Except.ok (if b then 1 else 0)) ∧
    (∀ i : Int, StackItem.getInteger (StackItem.Integer i) = Except.ok i) := by
  refine ⟨fun bs h => ?_, fun bs h => ?_, fun b => rfl, fun i => rfl⟩
  · constructor <;> simp [StackItem.getInteger, Nat.not_lt.mpr h]
  · constructor <;> simp [StackItem.getInteger, h]

/-- C5 witness: instantiating the conversion theorem at the concrete
payloads [7, 1] (2 bytes) and a 9-byte zero payload. -/
theorem c5_witness :
    StackItem.getInteger (StackItem.ByteString [7, 1]) =
      Except.ok (fromSignedBytesLE [7, 1]) ∧
    StackItem.getInteger (StackItem.Buffer (List.replicate 9 1)) =
      Except.error msgTooLongForInteger :=
  ⟨(c5_primitive_to_integer.1 [7, 1] (by decide)).1,
   (c5_primitive_to_integer.2.1 (List.replicate 9 1) (by decide)).2⟩

/-- C6 counterexample: two Array values that are not the same object (the
identity oracle answers false everywhere) but have equal contents
compare equal, and likewise two distinct Map values; the claim states
that Arrays and Maps compare equal only under reference identity and
that equality never recurses into distinct Arrays or Maps. -/
theorem c6_counterexample :
    StackItem.equals (fun _ _ => false) defaultLimits
      (StackItem.Array [StackItem.Integer 1])
      (StackItem.Array [StackItem.Integer 1]) = true ∧
    StackItem.equals (fun _ _ => false) defaultLimits
      (StackItem.Map [(StackItem.ByteString [1], StackItem.Integer 2)])
      (StackItem.Map [(StackItem.ByteString [1], StackItem.Integer 2)]) = true := by
  constructor <;>
    simp [StackItem.equals, equalsInner, equalsElems, equalsPairs, mapGet,
          StackItem.getSpan]

/-- C6 (amended): structural equality compares Structs, Arrays, and Maps
all by recursive structural equality — element-wise for Arrays and
Structs, per-key lookup for Maps — with reference identity only as a
shortcut that can make items equal early, and no work budget is
enforced: the limits argument is ignored. -/
theorem c6_structural_equality :
    (∀ same xs ys, equalsInner same (StackItem.Array xs) (StackItem.Array ys) =
        (same (StackItem.Array xs) (StackItem.Array ys) ||
          (xs.length == ys.length && equalsElems same xs ys))) ∧
    (∀ same xs ys, equalsInner same (StackItem.Struct xs) (StackItem.Struct ys) =
        (same (StackItem.Struct xs) (StackItem.Struct ys) ||
          (xs.length == ys.length && equalsElems same xs ys))) ∧
    (∀ same xs ys, equalsInner same (StackItem.Map xs) (StackItem.Map ys) =
        (same (StackItem.Map xs) (StackItem.Map ys) ||
          (xs.length == ys.length && equalsPairs same xs ys))) ∧
    (∀ same limitsA limitsB a b,
        StackItem.equals same limitsA a b = StackItem.equals same limitsB a b) := by
  refine ⟨fun same xs ys => ?_, fun same xs ys => ?_, fun same xs ys => ?_,
         fun _ _ _ _ _ => rfl⟩ <;> simp [equalsInner]

/-- C10: the public evaluation-stack operations are total — for every
out-of-range index or count, peek, insert, reverse, and remove (hence
pop) return an error value, and the stack contents together with the
reference counter total are returned unchanged. -/
theorem c10_stack_ops_total :
    (∀ (s : EvaluationStack) (n : Nat), s.count ≤ n →
        s.peek n = Except.error (VMError.InvalidParameter msgPeekOOB)) ∧
    (∀ (s : EvaluationStack) (n : Nat) (item : StackItem), s.count < n →
        s.insert n item = (s, Option.some (VMError.InvalidParameter msgInsertOOB))) ∧
    (∀ (s : EvaluationStack) (n : Nat), s.count < n →
        s.reverse n = (s, Option.some (VMError.InvalidParameter msgReverseOOB))) ∧
    (∀ (s : EvaluationStack) (n : Nat), s.count ≤ n →
        s.remove n = (s, Except.error (VMError.InvalidParameter msgRemoveOOB))) := by
  refine ⟨fun s n h => ?_, fun s n item h => ?_, fun s n h => ?_, fun s n h => ?_⟩
  · simp [EvaluationStack.peek, h]
  · simp [EvaluationStack.insert, h]
  · simp [EvaluationStack.reverse, h]
  · simp [EvaluationStack.remove, h]

/-- C10 witness: the empty stack with counter 0 rejects peek 0, insert 1,
reverse 1, and pop, each returning an error and the unchanged stack. -/
theorem c10_witness :
    (⟨[], 0⟩ : EvaluationStack).peek 0 =
      Except.error (VMError.InvalidParameter msgPeekOOB) ∧
    (⟨[], 0⟩ : EvaluationStack).insert 1 StackItem.Null =
      ((⟨[], 0⟩ : EvaluationStack), Option.some (VMError.InvalidParameter msgInsertOOB)) ∧
    (⟨[], 0⟩ : EvaluationStack).reverse 1 =
      ((⟨[], 0⟩ : EvaluationStack), Option.some (VMError.InvalidParameter msgReverseOOB)) ∧
    (⟨[], 0⟩ : EvaluationStack).pop =
      ((⟨[], 0⟩ : EvaluationStack), Except.error (VMError.InvalidParameter msgRemoveOOB)) :=
  ⟨c10_stack_ops_total.1 ⟨[], 0⟩ 0 (Nat.le_refl 0),
   c10_stack_ops_total.2.1 ⟨[], 0⟩ 1 StackItem.Null (Nat.zero_lt_one),
   c10_stack_ops_total.2.2.1 ⟨[], 0⟩ 1 (Nat.zero_lt_one),
   c10_stack_ops_total.2.2.2 ⟨[], 0⟩ 0 (Nat.le_refl 0)⟩

/-- Validity of an opcode byte, translated from the OpCode enum of
src/vm/op_code.rs (OpCode::from_u8 is the derived FromPrimitive
conversion: it succeeds exactly on the listed discriminants).  The enum
covers 0x00-0x05, 0x08-0x41, 0x43, 0x45, 0x46, 0x48-0x4B, 0x4D, 0x4E,
0x50-0x89, 0x8B-0x8E, 0x90-0x93, 0x97-0xA6, 0xA8-0xAC, 0xB1, 0xB3-0xBB,
0xBE-0xC6, 0xC8, 0xCA-0xD4, 0xD8, 0xD9, 0xDB, 0xE0, 0xE1. -/
def isValidOpcode (b : Nat) : Bool :=
  decide (b ≤ 0x05) || decide (0x08 ≤ b ∧ b ≤ 0x41) || decide (b = 0x43) ||
  decide (b = 0x45) || decide (b = 0x46) || decide (0x48 ≤ b ∧ b ≤ 0x4B) ||
  decide (b = 0x4D) || decide (b = 0x4E) || decide (0x50 ≤ b ∧ b ≤ 0x89) ||
  decide (0x8B ≤ b ∧ b ≤ 0x8E) || decide (0x90 ≤ b ∧ b ≤ 0x93) ||
  decide (0x97 ≤ b ∧ b ≤ 0xA6) || decide (0xA8 ≤ b ∧ b ≤ 0xAC) ||
  decide (b = 0xB1) || decide (0xB3 ≤ b ∧ b ≤ 0xBB) ||
  decide (0xBE ≤ b ∧ b ≤ 0xC6) || decide (b = 0xC8) ||
  decide (0xCA ≤ b ∧ b ≤ 0xD4) || decide (b = 0xD8) || decide (b = 0xD9) ||
  decide (b = 0xDB) || decide (b = 0xE0) || decide (b = 0xE1)

/-- OpCode::operand_prefix, translated from src/vm/op_code.rs lines
230-237: the PUSHDATA family carries a 1-, 2-, or 4-byte length
prefix; every other opcode has none. -/
def operandPrefixLen (b : Nat) : Nat :=
  match b with
  | 0x0C => 1
  | 0x0D => 2
  | 0x0E => 4
  | _ => 0

/-- OpCode::operand_size, translated from src/vm/op_code.rs lines
239-286: fixed operand widths of the prefix-less opcodes (PUSHINT
family 1/2/4/8/16/32, PUSHA 4, short jumps and CALL 1, long jumps and
CALL_L 4, CALLT 2, TRY 2, TRY_L 8, ENDTRY 1, ENDTRY_L 4, SYSCALL 4,
INITSLOT 2, the one-byte slot/type operands; everything else 0). -/
def operandSizeOf (b : Nat) : Nat :=
  match b with
  | 0x00 => 1
  | 0x01 => 2
  | 0x02 => 4
  | 0x03 => 8
  | 0x04 => 16
  | 0x05 => 32
  | 0x0A => 4
  | 0x22 | 0x24 | 0x26 | 0x28 | 0x2A | 0x2C | 0x2E | 0x30 | 0x32 | 0x34 => 1
  | 0x23 | 0x25 | 0x27 | 0x29 | 0x2B | 0x2D | 0x2F | 0x31 | 0x33 | 0x35 => 4
  | 0x37 => 2
  | 0x3B => 2
  | 0x3C => 8
  | 0x3D => 1
  | 0x3E => 4
  | 0x41 => 4
  | 0x57 => 2
  | 0x5F | 0x67 | 0x6F | 0x77 | 0x7F | 0x87 | 0xC4 | 0xD9 | 0xDB => 1
  | _ => 0

/-- A decoded instruction, translated from src/vm/instruction.rs: the
opcode byte and the operand payload bytes. -/
structure Instr where
  opcode : Nat
  operand : List Nat
deriving DecidableEq, Repr

/-- Instruction::size, translated from src/vm/instruction.rs lines 64-71:
with a length prefix the size is 1 + prefix + payload length, otherwise
1 + the fixed operand size of the opcode. -/
def Instr.size (ins : Instr) : Nat :=
  let p := operandPrefixLen ins.opcode
  if p > 0 then 1 + p + ins.operand.length
  else 1 + operandSizeOf ins.opcode

/-- Instruction::token_i8: first operand byte read as a signed byte. -/
def Instr.tokenI8 (ins : Instr) : Int :=
  let b := ins.operand.headD 0 % 256
  if 128 ≤ b then (b : Int) - 256 else (b : Int)

/-- Instruction::token_i8_1: second operand byte read as a signed byte. -/
def Instr.tokenI8one (ins : Instr) : Int :=
  let b := (ins.operand.drop 1).headD 0 % 256
  if 128 ≤ b then (b : Int) - 256 else (b : Int)

/-- Instruction::token_i32: first four operand bytes, little-endian
signed. -/
def Instr.tokenI32 (ins : Instr) : Int :=
  fromSignedBytesLE (ins.operand.take 4)

/-- Instruction::token_i32_1: operand bytes four to eight, little-endian
signed. -/
def Instr.tokenI32one (ins : Instr) : Int :=
  fromSignedBytesLE ((ins.operand.drop 4).take 4)

/-- Outcome of decoding at an offset: a decoded instruction, a decode
error (out-of-range pointer or truncated operand — the engine turns
these into Fault), or a Rust panic (the unwrap on OpCode::from_u8 for a
byte that is not a discriminant). -/
inductive DecodeResult where
  | ok (ins : Instr)
  | err
  | panicked
deriving DecidableEq, Repr

/-- Instruction::new, translated from src/vm/instruction.rs lines 21-61:
bounds check on ip, opcode conversion (panic on an invalid byte), then
either the prefix path (read the little-endian length prefix, bounds
check, slice the payload) or the fixed-size path (bounds check, slice
the payload). -/
def instructionNew (script : List Nat) (ip : Nat) : DecodeResult :=
  if ip ≥ script.length then DecodeResult.err
  else
    let b := script.getD ip 0
    if isValidOpcode b then
      let pre := operandPrefixLen b
      if pre > 0 then
        if ip + 1 + pre > script.length then DecodeResult.err
        else
          let osize := bytesToNatLE ((script.drop (ip + 1)).take pre)
          if ip + 1 + pre + osize > script.length then DecodeResult.err
          else DecodeResult.ok ⟨b, (script.drop (ip + 1 + pre)).take osize⟩
      else
        let osize := operandSizeOf b
        if ip + 1 + osize > script.length then DecodeResult.err
        else DecodeResult.ok ⟨b, (script.drop (ip + 1)).take osize⟩
    else DecodeResult.panicked

/-- ExecutionContext::current_instruction composed with
Script::get_instruction (src/vm/execution_context.rs lines 107-137 and
src/vm/script.rs lines 41-57, non-strict mode): an instruction pointer
at or past the end of the script is a decode error, otherwise the
instruction is decoded afresh (the per-offset cache is transparent). -/
def decodeAt (script : List Nat) (ip : Nat) : DecodeResult :=
  if ip ≥ script.length then DecodeResult.err
  else instructionNew script ip

/-- One activation frame, translated from src/vm/execution_context.rs.
The evaluation stack is stored in its Vec order (top last); the
try stack likewise (top handler last).  Slots and the shared-state cell
are not needed by any verified claim and are omitted; rv_count is the
expected return-value count with -1 meaning variadic. -/
structure ExecutionContext where
  script : List Nat
  rvCount : Int
  instructionPointer : Nat
  evaluationStack : List StackItem
  tryStack : Option (List ExceptionHandlingContext)

/-- The execution engine, translated from src/vm/execution_engine.rs.
The invocation stack is kept top-first (head = current context; the
source Vec keeps the top last and pairs it with the current_context
alias, which always designates the top).  refCount is
ReferenceCounter::references_count; collectible models the references a
cycle collection would free (see checkZeroReferred).  panicked records
a Rust panic; unmodelled records dispatch onto an opcode whose handler
is not embedded here. -/
structure ExecutionEngine where
  state : VMState
  isJumping : Bool
  limits : ExecutionEngineLimits
  refCount : Nat
  collectible : Nat
  invocationStack : List ExecutionContext
  resultStack : List StackItem
  uncaughtException : Option StackItem
  panicked : Bool
  unmodelled : Bool

namespace ExecutionEngine

/-- A Rust panic (unwrap failure); the process would abort. -/
def panic (e : ExecutionEngine) : ExecutionEngine :=
  { e with panicked := true }

/-- ExecutionEngine::pop at its call sites: pop the top item of the
current context evaluation stack, informing the reference counter;
none when there is no context or the stack is empty (the handlers
unwrap, i.e. panic, in that case). -/
def popItem (e : ExecutionEngine) : Option (StackItem × ExecutionEngine) :=
  match e.invocationStack with
  | [] => Option.none
  | ctx :: rest =>
    let s : EvaluationStack := ⟨ctx.evaluationStack, e.refCount⟩
    match s.pop with
    | (s2, Except.ok item) =>
      Option.some (item,
        { e with invocationStack := { ctx with evaluationStack := s2.innerList } :: rest,
                 refCount := s2.refCount })
    | (_, Except.error _) => Option.none

/-- ExecutionEngine::push: push onto the current context evaluation
stack, informing the reference counter. -/
def pushItem (e : ExecutionEngine) (item : StackItem) : ExecutionEngine :=
  match e.invocationStack with
  | [] => e.panic
  | ctx :: rest =>
    let s : EvaluationStack := ⟨ctx.evaluationStack, e.refCount⟩
    let s2 := s.push item
    { e with invocationStack := { ctx with evaluationStack := s2.innerList } :: rest,
             refCount := s2.refCount }

/-- The pop().unwrap().get_integer().unwrap() sequence used by the
numeric handlers; none on either unwrap (a panic at the call site). -/
def popInteger (e : ExecutionEngine) : Option (Int × ExecutionEngine) :=
  match e.popItem with
  | Option.none => Option.none
  | Option.some (item, e2) =>
    match item.getInteger with
    | Except.ok i => Option.some (i, e2)
    | Except.error _ => Option.none

end ExecutionEngine

/-- JumpTable::push0, translated from src/jump_table/push.rs lines
110-112. -/
def opPush0 (e : ExecutionEngine) (_ins : Instr) : ExecutionEngine :=
  e.pushItem (StackItem.Integer 0)

/-- JumpTable::push1, translated from src/jump_table/push.rs lines
116-118. -/
def opPush1 (e : ExecutionEngine) (_ins : Instr) : ExecutionEngine :=
  e.pushItem (StackItem.Integer 1)

/-- JumpTable::add, translated from src/jump_table/numeric.rs lines
45-49: pop two integers and push their exact sum.  No bound of any kind
is checked on the result. -/
def opAdd (e : ExecutionEngine) (_ins : Instr) : ExecutionEngine :=
  match e.popInteger with
  | Option.none => e.panic
  | Option.some (x2, e1) =>
    match e1.popInteger with
    | Option.none => e1.panic
    | Option.some (x1, e2) => e2.pushItem (StackItem.Integer (x1 + x2))

/-- JumpTable::mul, translated from src/jump_table/numeric.rs lines
61-65: pop two integers and push their exact product; no bound check. -/
def opMul (e : ExecutionEngine) (_ins : Instr) : ExecutionEngine :=
  match e.popInteger with
  | Option.none => e.panic
  | Option.some (x2, e1) =>
    match e1.popInteger with
    | Option.none => e1.panic
    | Option.some (x1, e2) => e2.pushItem (StackItem.Integer (x1 * x2))

/-- JumpTable::div, translated from src/jump_table/numeric.rs lines
69-77: pop divisor then dividend; a zero divisor faults the engine with
nothing pushed; otherwise the truncated quotient is pushed (Rust BigInt
division truncates toward zero). -/
def opDiv (e : ExecutionEngine) (_ins : Instr) : ExecutionEngine :=
  match e.popInteger with
  | Option.none => e.panic
  | Option.some (x2, e1) =>
    match e1.popInteger with
    | Option.none => e1.panic
    | Option.some (x1, e2) =>
      if x2 = 0 then { e2 with state := VMState.Fault }
      else e2.pushItem (StackItem.Integer (x1.tdiv x2))

/-- JumpTable::mod_op, translated from src/jump_table/numeric.rs lines
81-89: pop divisor then dividend; a zero divisor faults the engine with
nothing pushed; otherwise the truncated remainder is pushed. -/
def opMod (e : ExecutionEngine) (_ins : Instr) : ExecutionEngine :=
  match e.popInteger with
  | Option.none => e.panic
  | Option.some (x2, e1) =>
    match e1.popInteger with
    | Option.none => e1.panic
    | Option.some (x1, e2) =>
      if x2 = 0 then { e2 with state := VMState.Fault }
      else e2.pushItem (StackItem.Integer (x1.tmod x2))

/-- JumpTable::ret, translated from src/jump_table/control.rs lines
325-346: pop the finished context; with rv_count ≥ 0 a mismatched
item count faults; otherwise all its items are copied in order onto the
caller evaluation stack, or onto the engine result stack when no caller
remains, in which case the state becomes Halt.  copy_to informs the
counter of one new stack reference per copied item and does not remove
the source references (the identity test between the two stacks is true
here because no modelled script shares evaluation stacks across
contexts). -/
def opRet (e : ExecutionEngine) (_ins : Instr) : ExecutionEngine :=
  match e.invocationStack with
  | [] => e.panic
  | contextPop :: rest =>
    if 0 ≤ contextPop.rvCount ∧
        (contextPop.evaluationStack.length : Int) ≠ contextPop.rvCount then
      { e with invocationStack := rest, state := VMState.Fault }
    else
      let items := contextPop.evaluationStack
      match rest with
      | [] =>
        { e with invocationStack := [],
                 resultStack := e.resultStack ++ items,
                 refCount := e.refCount + items.length,
                 state := VMState.Halt,
                 isJumping := true }
      | caller :: below =>
        { e with invocationStack :=
                   { caller with evaluationStack := caller.evaluationStack ++ items } :: below,
                 refCount := e.refCount + items.length,
                 isJumping := true }

def msgNotBytes : String := "Not a buffer or byte string"

/-- Modelled from the spec: get_buffer_or_byte_string, the accessor used
by the splice handlers in src/jump_table/splice.rs (not among the
sources) — per section 4.A, bytes() is available for ByteString and
Buffer payloads and fails on every other kind. -/
def StackItem.getBufferOrByteString : StackItem → Except String (List Nat)
  | StackItem.ByteString bs => Except.ok bs
  | StackItem.Buffer bs => Except.ok bs
  | _ => Except.error msgNotBytes

def msgItemTooLarge : String := "MaxItemSize exceeded"

/-- Modelled from the spec: ExecutionEngineLimits::assert_max_item_size
(not among the sources) returns an error exactly when the size exceeds
max_item_size; push_data in src/jump_table/push.rs faults the engine on
that error. -/
def assertMaxItemSize (limits : ExecutionEngineLimits) (size : Nat) :
    Except VMError Unit :=
  if size > limits.maxItemSize then Except.error (VMError.ItemTooLarge msgItemTooLarge)
  else Except.ok ()

/-- JumpTable::cat, translated from src/jump_table/splice.rs lines 76-94:
pop two byte payloads (a non-byte operand faults), concatenate, call
assert_max_item_size on the result length with the returned Result
dropped on the floor (the source statement discards it, unlike
push_data which faults on the same error), then push the concatenation
as a ByteString unconditionally. -/
def opCat (e : ExecutionEngine) (_ins : Instr) : ExecutionEngine :=
  match e.popItem with
  | Option.none => e.panic
  | Option.some (bItem, e1) =>
    match bItem.getBufferOrByteString with
    | Except.error _ => { e1 with state := VMState.Fault }
    | Except.ok b =>
      match e1.popItem with
      | Option.none => e1.panic
      | Option.some (aItem, e2) =>
        match aItem.getBufferOrByteString with
        | Except.error _ => { e2 with state := VMState.Fault }
        | Except.ok a =>
          let result := a ++ b
          let _check := assertMaxItemSize e2.limits result.length
          e2.pushItem (StackItem.ByteString result)

/-- The dispatch table of src/jump_table/mod.rs restricted to the
handlers embedded in this development (the source registers about 190
handlers; the ones below are those the verified claims exercise).
Dispatch onto any other opcode marks the run unmodelled — no theorem is
stated about those opcodes. -/
def dispatchExecute (e : ExecutionEngine) (ins : Instr) : ExecutionEngine :=
  match ins.opcode with
  | 0x10 => opPush0 e ins
  | 0x11 => opPush1 e ins
  | 0x40 => opRet e ins
  | 0x8B => opCat e ins
  | 0x9E => opAdd e ins
  | 0xA0 => opMul e ins
  | 0xA1 => opDiv e ins
  | 0xA2 => opMod e ins
  | _ => { e with unmodelled := true }

namespace ExecutionEngine

/-- Modelled from the spec (section 4.B): check_zero_referred runs the
Tarjan collection over the zero-referred compounds and their
successors, frees every dead component, and returns the live reference
total after collection.  The method is called by
post_execute_instruction but is not among the sources; the model keeps
the total the collection would free as the field collectible, and
collection removes exactly that amount. -/
def checkZeroReferred (e : ExecutionEngine) : ExecutionEngine × Nat :=
  let live := e.refCount - e.collectible
  ({ e with refCount := live, collectible := 0 }, live)

end ExecutionEngine

def msgMaxStackSize : String := "MaxStackSize exceeded"

namespace ExecutionEngine

/-- ExecutionEngine::post_execute_instruction, translated from
src/vm/execution_engine.rs lines 257-265: when the reference total is
below max_stack_size nothing happens; otherwise collection runs, and
when the post-collection total still exceeds max_stack_size the
StackOverflow error is returned (the caller faults the engine). -/
def postExecuteInstruction (e : ExecutionEngine) : ExecutionEngine × Option VMError :=
  if e.refCount < e.limits.maxStackSize then (e, Option.none)
  else
    let collected := e.checkZeroReferred
    if collected.2 > e.limits.maxStackSize then
      (collected.1, Option.some (VMError.StackOverflow msgMaxStackSize))
    else (collected.1, Option.none)

/-- ExecutionContext::move_next applied to the current context
(src/vm/execution_context.rs lines 155-162): advance the instruction
pointer by the size of the instruction decoded at it; a decode error
leaves the pointer unchanged; an invalid opcode byte panics. -/
def moveNext (e : ExecutionEngine) : ExecutionEngine :=
  match e.invocationStack with
  | [] => e
  | ctx :: rest =>
    match decodeAt ctx.script ctx.instructionPointer with
    | DecodeResult.ok ins =>
      { e with invocationStack :=
          { ctx with instructionPointer := ctx.instructionPointer + ins.size } :: rest }
    | DecodeResult.err => e
    | DecodeResult.panicked => e.panic

end ExecutionEngine

def msgNoContext : String := "No current context"

def msgNoInstruction : String := "No current instruction"

namespace ExecutionEngine

/-- ExecutionEngine::execute_instruction, translated from
src/vm/execution_engine.rs lines 152-172: fetch the current context and
instruction (errors surface to the caller, which faults), dispatch,
run post_execute_instruction (its error surfaces likewise), advance
the instruction pointer unless the handler jumped, and clear the
jumping flag.  A panicked or unmodelled dispatch stops the model
immediately. -/
def executeInstruction (e : ExecutionEngine) : ExecutionEngine × Option VMError :=
  match e.invocationStack with
  | [] => (e, Option.some (VMError.Custom msgNoContext))
  | ctx :: _ =>
    match decodeAt ctx.script ctx.instructionPointer with
    | DecodeResult.panicked => (e.panic, Option.none)
    | DecodeResult.err => (e, Option.some (VMError.Custom msgNoInstruction))
    | DecodeResult.ok ins =>
      let e1 := dispatchExecute e ins
      if e1.panicked ∨ e1.unmodelled then (e1, Option.none)
      else
        let pr := e1.postExecuteInstruction
        match pr.2 with
        | Option.some errv => (pr.1, Option.some errv)
        | Option.none =>
          let e3 := if e1.isJumping then pr.1 else pr.1.moveNext
          ({ e3 with isJumping := false }, Option.none)

/-- ExecutionEngine::execute_next, translated from lines 141-150: an
empty invocation stack halts; otherwise one instruction executes, and
an error faults the engine (on_fault). -/
def executeNext (e : ExecutionEngine) : ExecutionEngine :=
  if e.invocationStack.isEmpty then { e with state := VMState.Halt }
  else
    match e.executeInstruction with
    | (e2, Option.none) => e2
    | (e2, Option.some _) => { e2 with state := VMState.Fault }

end ExecutionEngine

/-- The while loop of ExecutionEngine::execute with explicit fuel: the
body runs while the state is neither Halt nor Fault; a panicked or
unmodelled run also stops (the Rust process would have aborted or
entered a handler that is not embedded). -/
def execRun : Nat → ExecutionEngine → ExecutionEngine
  | 0, e => e
  | Nat.succ n, e =>
    if e.state = VMState.Halt ∨ e.state = VMState.Fault ∨ e.panicked ∨ e.unmodelled
    then e
    else execRun n e.executeNext

/-- ExecutionEngine::execute, translated from lines 131-139: a Break
state is first reset to None, then the dispatch loop runs (here with
explicit fuel). -/
def ExecutionEngine.executeFuel (e : ExecutionEngine) (fuel : Nat) : ExecutionEngine :=
  execRun fuel (if e.state = VMState.Break then { e with state := VMState.None } else e)

/-- ExecutionEngine::new with default limits (src/vm/execution_engine.rs
lines 104-129): Break state, empty stacks, zero reference total. -/
def engineNew : ExecutionEngine :=
  ⟨VMState.Break, false, defaultLimits, 0, 0, [], [], Option.none, false, false⟩

def msgInvalidRvCount : String := "Invalid rv_count"

def msgIpOutOfRange : String := "Instruction pointer out of range"

def msgMaxInvocation : String := "MaxInvocationStackSize exceeded"

/-- ExecutionEngine::load_script via create_context and load_context
(src/vm/execution_engine.rs lines 174-215): validate rv_count and the
initial instruction pointer, enforce the invocation-stack bound, then
push the fresh context, which becomes current. -/
def ExecutionEngine.loadScript (e : ExecutionEngine) (script : List Nat)
    (rvCount : Int) (initialPosition : Nat) : Except VMError ExecutionEngine :=
  if rvCount < -1 ∨ rvCount > 65535 then
    Except.error (VMError.InvalidParameter msgInvalidRvCount)
  else if initialPosition > script.length then
    Except.error (VMError.Custom msgIpOutOfRange)
  else if e.invocationStack.length ≥ e.limits.maxInvocationStackSize then
    Except.error (VMError.InvocationStackOverflow msgMaxInvocation)
  else
    Except.ok { e with invocationStack :=
      ⟨script, rvCount, initialPosition, [], Option.none⟩ :: e.invocationStack }

/-- The discard test of the unwinding loop in execute_throw
(src/jump_table/control.rs lines 468-471): handlers in state Finally,
and Catch handlers without a finally, are discarded. -/
def discardableHandler (tc : ExceptionHandlingContext) : Bool :=
  tc.state = ExceptionHandlingState.Finally ||
  (tc.state = ExceptionHandlingState.Catch && tc.finallyPointer.isNone)

/-- The inner while of execute_throw on one try stack, on the top-first
handler list: pop discardable handlers; return the remaining top-first
list together with its head when a claiming handler is found, none when
the stack is exhausted. -/
def unwindHandlers : List ExceptionHandlingContext →
    Option (List ExceptionHandlingContext × ExceptionHandlingContext)
  | [] => Option.none
  | tc :: rest =>
    if discardableHandler tc then unwindHandlers rest
    else Option.some (tc :: rest, tc)

/-- JumpTable::execute_throw, translated from src/jump_table/control.rs
lines 462-499: store the exception, then walk the invocation stack from
the top.  In each context, discard Finally handlers and Catch handlers
without a finally; the first surviving handler claims the exception
after the contexts above are unloaded: a Try handler with a catch
transitions to Catch, receives the exception on that context evaluation
stack, and execution resumes at catch_pointer with the exception
cleared; otherwise the handler transitions to Finally and execution
resumes at finally_pointer with the exception still pending (a missing
finally pointer there is an unwrap panic).  When no handler claims the
exception the engine faults; contexts whose try stacks were emptied
along the walk keep the emptied stacks.  Slot-reference clearing done
by unload_context is not modelled (slots are not part of the model). -/
def throwWalk (e : ExecutionEngine) :
    List ExecutionContext → List ExecutionContext → ExecutionEngine
  | [], walked =>
    { e with invocationStack := walked, state := VMState.Fault }
  | ctx :: below, walked =>
    match ctx.tryStack with
    | Option.none => throwWalk e below (walked ++ [ctx])
    | Option.some ts =>
      match unwindHandlers ts.reverse with
      | Option.none =>
        throwWalk e below (walked ++ [{ ctx with tryStack := Option.some [] }])
      | Option.some (remTopFirst, tc) =>
        if tc.state = ExceptionHandlingState.Try ∧ tc.catchPointer.isSome then
          match tc.catchPointer, e.uncaughtException with
          | Option.some cp, Option.some ex =>
            let tc2 := { tc with state := ExceptionHandlingState.Catch }
            let ts2 := (tc2 :: remTopFirst.tail).reverse
            let ctx2 := { ctx with
                          tryStack := Option.some ts2,
                          instructionPointer := cp,
                          evaluationStack := ctx.evaluationStack ++ [ex] }
            { e with invocationStack := ctx2 :: below,
                     refCount := e.refCount + 1,
                     uncaughtException := Option.none,
                     isJumping := true }
          | _, _ => e.panic
        else
          match tc.finallyPointer with
          | Option.some fp =>
            let tc2 := { tc with state := ExceptionHandlingState.Finally }
            let ts2 := (tc2 :: remTopFirst.tail).reverse
            let ctx2 := { ctx with
                          tryStack := Option.some ts2,
                          instructionPointer := fp }
            { e with invocationStack := ctx2 :: below, isJumping := true }
          | Option.none => e.panic

/-- Entry point of execute_throw: record the exception as uncaught and
walk the invocation stack. -/
def executeThrow (e : ExecutionEngine) (exception : StackItem) : ExecutionEngine :=
  throwWalk { e with uncaughtException := Option.some exception }
    e.invocationStack []

/-- JumpTable::execute_end_try, translated from src/jump_table/control.rs
lines 426-460: no try stack or an empty one faults; a handler already
in state Finally faults; the end pointer is ip + end_offset (the source
casts the i32 offset to usize and checked_adds, so a negative offset
overflows to a fault); with a finally present the handler transitions
to Finally, records the end pointer, and execution jumps to
finally_pointer; without one the handler is popped and execution jumps
to the end pointer.  Either way is_jumping is set. -/
def executeEndTry (e : ExecutionEngine) (endOffset : Int) : ExecutionEngine :=
  match e.invocationStack with
  | [] => e.panic
  | ctx :: below =>
    match ctx.tryStack with
    | Option.none => { e with state := VMState.Fault }
    | Option.some ts =>
      match ts.getLast? with
      | Option.none => { e with state := VMState.Fault }
      | Option.some currentTry =>
        if currentTry.state = ExceptionHandlingState.Finally then
          { e with state := VMState.Fault }
        else if endOffset < 0 then { e with state := VMState.Fault }
        else
          let endPointer := ctx.instructionPointer + endOffset.toNat
          match currentTry.finallyPointer with
          | Option.some fp =>
            let tc2 := { currentTry with
                         state := ExceptionHandlingState.Finally,
                         endPointer := endPointer }
            let ctx2 := { ctx with
                          tryStack := Option.some (ts.dropLast ++ [tc2]),
                          instructionPointer := fp }
            { e with invocationStack := ctx2 :: below, isJumping := true }
          | Option.none =>
            let ctx2 := { ctx with
                          tryStack := Option.some ts.dropLast,
                          instructionPointer := endPointer }
            { e with invocationStack := ctx2 :: below, isJumping := true }

/-- JumpTable::end_finally, translated from src/jump_table/control.rs
lines 295-321: no try stack or an empty one faults; the top handler is
popped; if the popped handler is in state Finally the engine faults
(this check precedes everything else); otherwise, with no pending
exception execution jumps to the recorded end_pointer, and with a
pending exception propagation resumes via execute_throw.  is_jumping is
set at the end of the non-fault paths. -/
def endFinally (e : ExecutionEngine) : ExecutionEngine :=
  match e.invocationStack with
  | [] => e.panic
  | ctx :: below =>
    match ctx.tryStack with
    | Option.none => { e with state := VMState.Fault }
    | Option.some ts =>
      match ts.getLast? with
      | Option.none => { e with state := VMState.Fault }
      | Option.some currentTry =>
        let ctx2 := { ctx with tryStack := Option.some ts.dropLast }
        let e1 := { e with invocationStack := ctx2 :: below }
        if currentTry.state = ExceptionHandlingState.Finally then
          { e1 with state := VMState.Fault }
        else
          match e1.uncaughtException with
          | Option.none =>
            let ctx3 := { ctx2 with instructionPointer := currentTry.endPointer }
            { e1 with invocationStack := ctx3 :: below, isJumping := true }
          | Option.some ex =>
            let e2 := executeThrow { e1 with uncaughtException := Option.none } ex
            { e2 with isJumping := true }

/-- A state on which the dispatch loop has stopped stays fixed under
further fuel. -/
theorem execRun_fixed (n : Nat) (e : ExecutionEngine)
    (h : e.state = VMState.Halt ∨ e.state = VMState.Fault ∨ e.panicked ∨ e.unmodelled) :
    execRun n e = e := by
  cases n with
  | zero => rfl
  | succ n => unfold execRun; rw [if_pos h]

/-- The engine as seen after an instruction: post_execute_instruction
followed by the on_fault treatment of its error, exactly as the
execute_instruction / execute_next pair composes them
(src/vm/execution_engine.rs lines 141-172 and 248-265). -/
def postStep (e : ExecutionEngine) : ExecutionEngine :=
  let pr := e.postExecuteInstruction
  if (pr.2).isSome then { pr.1 with state := VMState.Fault } else pr.1

/-- C2: after the post-instruction check, either the reference total is
at most max_stack_size or the engine is faulted; whenever the total is
above the bound the engine first collects (check_zero_referred) and
keeps the collected total, faulting exactly when the post-collection
total still exceeds the bound; and the error raised then is the
StackOverflow with message msgMaxStackSize. -/
theorem c2_stack_bound :
    (∀ e : ExecutionEngine,
        (postStep e).refCount ≤ e.limits.maxStackSize ∨
        (postStep e).state = VMState.Fault) ∧
    (∀ e : ExecutionEngine, e.limits.maxStackSize < e.refCount →
        postStep e =
          (if e.refCount - e.collectible > e.limits.maxStackSize then
            { e with refCount := e.refCount - e.collectible, collectible := 0,
                     state := VMState.Fault }
          else
            { e with refCount := e.refCount - e.collectible, collectible := 0 })) ∧
    (∀ e : ExecutionEngine, e.limits.maxStackSize < e.refCount →
        (e.postExecuteInstruction.2 =
            Option.some (VMError.StackOverflow msgMaxStackSize) ↔
          e.limits.maxStackSize < e.refCount - e.collectible)) := by
  refine ⟨fun e => ?_, fun e h => ?_, fun e h => ?_⟩
  · unfold postStep ExecutionEngine.postExecuteInstruction ExecutionEngine.checkZeroReferred
    by_cases h1 : e.refCount < e.limits.maxStackSize
    · simp only [if_pos h1]; left; simpa using Nat.le_of_lt h1
    · simp only [if_neg h1]
      by_cases h2 : e.refCount - e.collectible > e.limits.maxStackSize
      · simp only [if_pos h2]; right; rfl
      · simp only [if_neg h2, Option.isSome_none, Bool.false_eq_true, if_false]
        left; simpa using Nat.le_of_not_lt h2
  · unfold postStep ExecutionEngine.postExecuteInstruction ExecutionEngine.checkZeroReferred
    simp only [if_neg (by omega : ¬ e.refCount < e.limits.maxStackSize)]
    by_cases h2 : e.refCount - e.collectible > e.limits.maxStackSize
    · simp only [if_pos h2]; rfl
    · simp only [if_neg h2, Option.isSome_none, Bool.false_eq_true, if_false]
  · unfold ExecutionEngine.postExecuteInstruction ExecutionEngine.checkZeroReferred
    simp only [if_neg (by omega : ¬ e.refCount < e.limits.maxStackSize)]
    by_cases h2 : e.refCount - e.collectible > e.limits.maxStackSize
    · simp only [if_pos h2]; simpa using h2
    · simp only [if_neg h2]; simp; omega

/-- C2 witness: an engine whose total 3000 exceeds the default bound 2048
with 500 collectible references still exceeds the bound after
collection, so the post-step faults; and the raised error is the
MaxStackSize StackOverflow. -/
theorem c2_witness :
    (let e : ExecutionEngine :=
      ⟨VMState.None, false, defaultLimits, 3000, 500, [], [], Option.none, false, false⟩
     postStep e =
        { e with refCount := 2500, collectible := 0, state := VMState.Fault } ∧
      (e.postExecuteInstruction.2 =
          Option.some (VMError.StackOverflow msgMaxStackSize) ↔ 2048 < 2500)) := by
  constructor
  · exact c2_stack_bound.2.1 _ (by decide)
  · exact c2_stack_bound.2.2 _ (by decide)

/-- The instruction value handed to a handler under test (the numeric
handlers never read their instruction argument). -/
def insADD : Instr := ⟨0x9E, []⟩

def insMUL : Instr := ⟨0xA0, []⟩

def insDIV : Instr := ⟨0xA1, []⟩

def insMOD : Instr := ⟨0xA2, []⟩

def insCAT : Instr := ⟨0x8B, []⟩

/-- An engine mid-run whose current evaluation stack holds exactly the
given items (Vec order, top last), with the given reference total. -/
def midEngine (limits : ExecutionEngineLimits) (stack : List StackItem)
    (rc : Nat) : ExecutionEngine :=
  ⟨VMState.None, false, limits, rc, 0,
   [⟨[], -1, 0, stack, Option.none⟩], [], Option.none, false, false⟩

/-- C1 counterexample: ADD on two maximal 32-byte integers pushes their
exact sum without faulting; the sum exceeds the 32-byte two's-complement
bound MAX_INTEGER_SIZE, so the resulting engine state holds an Integer
item larger than 32 bytes and the state is not Fault — no re-check
happened. -/
theorem c1_counterexample :
    (let big : Int := 2 ^ 255 - 1
     let after := opAdd (midEngine defaultLimits
       [StackItem.Integer big, StackItem.Integer big] 2) insADD
     after.state = VMState.None ∧
     after.panicked = false ∧
     after.invocationStack.head?.map ExecutionContext.evaluationStack =
       Option.some [StackItem.Integer (big + big)] ∧
     big + big = 2 ^ 256 - 2 ∧
     ¬ fitsInSignedBytes defaultLimits.maxIntegerSize (big + big)) := by
  refine ⟨rfl, rfl, rfl, by norm_num, ?_⟩
  intro hfit
  have h2 : (2 : Int) ^ 255 - 1 + (2 ^ 255 - 1) < 2 ^ (8 * defaultLimits.maxIntegerSize - 1) :=
    hfit.2
  norm_num [defaultLimits] at h2

/-- C1 (amended): the binary arithmetic handlers perform no re-check of
the 32-byte integer bound — ADD and MUL pop their two integer operands
and push the exact arbitrary-precision sum and product, leaving the
engine state unchanged for every pair of operands, however large the
result; oversized Integer items therefore become reachable stack
contents. -/
theorem c1_no_bound_recheck :
    ∀ (x1 x2 : Int) (rc : Nat) (st : VMState) (limits : ExecutionEngineLimits),
      opAdd { midEngine limits [StackItem.Integer x1, StackItem.Integer x2] rc
              with state := st } insADD =
        { midEngine limits [StackItem.Integer (x1 + x2)] (rc - 1 - 1 + 1)
          with state := st } ∧
      opMul { midEngine limits [StackItem.Integer x1, StackItem.Integer x2] rc
              with state := st } insMUL =
        { midEngine limits [StackItem.Integer (x1 * x2)] (rc - 1 - 1 + 1)
          with state := st } :=
  fun _ _ _ _ _ => ⟨rfl, rfl⟩

/-- The script of scenario S2: PUSH1, PUSH0, DIV, RET. -/
def scriptS2 : List Nat := [0x11, 0x10, 0xA1, 0x40]

/-- The engine produced by load_script on a fresh default engine for S2
(rv_count -1, initial position 0). -/
def loadedS2 : ExecutionEngine :=
  ⟨VMState.Break, false, defaultLimits, 0, 0,
   [⟨scriptS2, -1, 0, [], Option.none⟩], [], Option.none, false, false⟩

/-- C8: DIV and MOD on a zero divisor fault the engine and push nothing
(for every integer dividend and reference total); and end-to-end, the
four-byte script 11 10 A1 40 loads onto a fresh default engine and
terminates with state Fault and an empty result stack (the run is a
fixed point of the dispatch loop). -/
theorem c8_division_by_zero :
    (∀ (x1 : Int) (rc : Nat) (limits : ExecutionEngineLimits),
      opDiv (midEngine limits [StackItem.Integer x1, StackItem.Integer 0] rc) insDIV =
        { midEngine limits [] (rc - 1 - 1) with state := VMState.Fault } ∧
      opMod (midEngine limits [StackItem.Integer x1, StackItem.Integer 0] rc) insMOD =
        { midEngine limits [] (rc - 1 - 1) with state := VMState.Fault }) ∧
    engineNew.loadScript scriptS2 (-1) 0 = Except.ok loadedS2 ∧
    (loadedS2.executeFuel 10).state = VMState.Fault ∧
    (loadedS2.executeFuel 10).resultStack = [] ∧
    (∀ extra : Nat, execRun extra (loadedS2.executeFuel 10) = loadedS2.executeFuel 10) := by
  refine ⟨fun x1 rc limits => ⟨rfl, rfl⟩, rfl, rfl, rfl,
    fun extra => execRun_fixed extra _ (Or.inr (Or.inl rfl))⟩

/-- The script of scenario S1: PUSH0, PUSH1, ADD, RET. -/
def scriptS1 : List Nat := [0x10, 0x11, 0x9E, 0x40]

/-- The engine produced by load_script on a fresh default engine for S1
(rv_count -1, initial position 0). -/
def loadedS1 : ExecutionEngine :=
  ⟨VMState.Break, false, defaultLimits, 0, 0,
   [⟨scriptS1, -1, 0, [], Option.none⟩], [], Option.none, false, false⟩

/-- C9: the four-byte script 10 11 9E 40 loads onto a fresh default
engine and terminates with state Halt and a result stack holding
exactly the Integer 1 (the run is a fixed point of the dispatch
loop). -/
theorem c9_scenario_s1 :
    engineNew.loadScript scriptS1 (-1) 0 = Except.ok loadedS1 ∧
    (loadedS1.executeFuel 10).state = VMState.Halt ∧
    (loadedS1.executeFuel 10).resultStack = [StackItem.Integer 1] ∧
    (∀ extra : Nat, execRun extra (loadedS1.executeFuel 10) = loadedS1.executeFuel 10) := by
  refine ⟨rfl, rfl, ?_, fun extra => execRun_fixed extra _ (Or.inl rfl)⟩
  show [StackItem.Integer (0 + 1)] = [StackItem.Integer 1]
  norm_num

/-- Limits with a small MAX_ITEM_SIZE of 4 bytes (the item-size bound is
configuration; shrinking it keeps the computation small). -/
def smallItemLimits : ExecutionEngineLimits := ⟨2048, 4, 1024, 16, 256, 32⟩

/-- C7: evaluating cat at the failing input.  With MAX_ITEM_SIZE = 4,
concatenating the byte strings [1,2,3] and [4,5] produces 5 bytes;
assert_max_item_size on that length returns the ItemTooLarge error, yet
cat drops that Result and pushes the oversized ByteString with the
engine state unchanged — the claimed fault never happens (push_data in
src/jump_table/push.rs faults on the same check, showing the intended
use). -/
theorem c7_cat_ignores_size_check :
    (let after := opCat (midEngine smallItemLimits
        [StackItem.ByteString [1, 2, 3], StackItem.ByteString [4, 5]] 2) insCAT
     after.state = VMState.None ∧
     after.panicked = false ∧
     after.invocationStack.head?.map ExecutionContext.evaluationStack =
       Option.some [StackItem.ByteString [1, 2, 3, 4, 5]] ∧
     assertMaxItemSize smallItemLimits ([1, 2, 3, 4, 5] : List Nat).length =
       Except.error (VMError.ItemTooLarge msgItemTooLarge) ∧
     ([1, 2, 3, 4, 5] : List Nat).length > smallItemLimits.maxItemSize) :=
  ⟨rfl, rfl, rfl, rfl, by decide⟩

/-- A context inside a TRY with only a finally (catch offset 0, finally
at position 5), as execute_try builds it, about to execute ENDTRY at
instruction pointer 3. -/
def tryEngine : ExecutionEngine :=
  ⟨VMState.None, false, defaultLimits, 0, 0,
   [⟨List.replicate 12 0x21, -1, 3, [],
     Option.some [ExceptionHandlingContext.make Option.none (Option.some 5)]⟩],
   [], Option.none, false, false⟩

/-- C3: evaluating the code at the failing input.  ENDTRY (offset 6) on
a Try handler with a finally records end_pointer 9, moves the handler
to state Finally, and jumps to the finally body at 5 without faulting;
executing ENDFINALLY there — with no pending exception — then faults
the engine instead of jumping to the recorded end_pointer 9, because
end_finally rejects every handler in state Finally, which is exactly
the state ENDTRY just set.  The normal TRY/ENDTRY/finally path
therefore faults at ENDFINALLY. -/
theorem c3_endfinally_faults_after_endtry :
    (let afterEndTry := executeEndTry tryEngine 6
     afterEndTry.state = VMState.None ∧
     afterEndTry.panicked = false ∧
     afterEndTry.invocationStack.head?.map ExecutionContext.instructionPointer =
       Option.some 5 ∧
     afterEndTry.invocationStack.head?.bind ExecutionContext.tryStack =
       Option.some [⟨Option.none, Option.some 5, 9, ExceptionHandlingState.Finally⟩] ∧
     afterEndTry.uncaughtException = Option.none ∧
     (endFinally afterEndTry).state = VMState.Fault) :=
  ⟨rfl, rfl, rfl, rfl, rfl, rfl⟩

end NeoVM
